import Mathlib

/-!
Verification of the PredictWeather analysis core (`backend/app/services/ai_service.py`
and the alert sweep in `backend/app/services/scheduler.py`).

Modelling conventions:
* Numeric measurement values are rationals (`ℚ`); the Python source uses floats but
  every algorithm under study is plain field arithmetic, `min`/`max` and quartile
  interpolation, which are exact over `ℚ`.  The one genuinely irrational quantity,
  `np.std` inside the predictor confidence, is modelled separately over `ℝ` with
  `Real.sqrt`.
* A measurement is a row of the five optional numeric fields used by
  `numerical_columns` in the source.  `none` models a field that is absent from the
  measurement dict (the database schema declares all five columns non-nullable, so
  a missing field corresponds to an input dict without that key, and then the
  pandas DataFrame simply has no such column).  A column is "present" when at
  least one row carries a value.
* pandas reductions (`sum`, `mean`, `max`, `quantile`) skip missing values; `tail n`
  keeps the last `n` rows including missing ones.  Where the source can produce a
  float `NaN` (mean/max over an all-missing window, `iloc` hitting a missing
  pressure value), the model reproduces the concrete result of the subsequent
  Python `min`/`max` comparisons with `nan` (all such comparisons are `False`).
-/

namespace PredictWeather

/-- One weather observation row: the five optional numeric fields that
`ai_service.py` reads (`numerical_columns`).  `none` models a missing field. -/
structure Meas where
  temperature : Option ℚ
  humidity : Option ℚ
  pressure : Option ℚ
  wind_speed : Option ℚ
  precipitation : Option ℚ
deriving Repr, DecidableEq

/-- A DataFrame column: one optional value per row, in timestamp order. -/
abbrev Col := List (Option ℚ)

/-- Field access by column name, mirroring `df[col]`. -/
def colOf : String → Meas → Option ℚ
  | "temperature", m => m.temperature
  | "humidity", m => m.humidity
  | "pressure", m => m.pressure
  | "wind_speed", m => m.wind_speed
  | "precipitation", m => m.precipitation
  | _, _ => none

/-- The `numerical_columns` list of the source, in source order. -/
def numericalColumns : List String :=
  ["temperature", "humidity", "pressure", "wind_speed", "precipitation"]

/-- The column of a DataFrame built from a batch of measurement dicts. -/
def column (df : List Meas) (c : String) : Col := df.map (colOf c)

/-- Column presence check, `col in df.columns`: the column exists when some row
has the field. -/
def colPresent (df : List Meas) (c : String) : Bool := (column df c).any (·.isSome)

/-- The non-missing values of a column, in row order (what pandas reductions
actually aggregate, since they skip NaN). -/
def vals (col : Col) : List ℚ := col.filterMap id

/-- Last `n` rows of a column, `df[col].tail(n)`; keeps missing entries. -/
def tailN (n : ℕ) (col : Col) : Col := col.drop (col.length - n)

/-- The four hazard scores returned by `_assess_risks`, keyed in dict insertion
order flood, drought, storm, extreme_temperature. -/
structure RiskScores where
  flood_risk : ℚ
  drought_risk : ℚ
  storm_risk : ℚ
  extreme_temperature_risk : ℚ
deriving Repr, DecidableEq

/-- Flood block of `_assess_risks` (lines 192-195):
`min(1.0, df['precipitation'].tail(24).sum() / 50.0)` when the column exists,
else the initial 0.0. -/
def floodRisk (df : List Meas) : ℚ :=
  if colPresent df "precipitation" then
    min 1 ((vals (tailN 24 (column df "precipitation"))).sum / 50)
  else 0

/-- Drought block of `_assess_risks` (lines 198-206).  The `tail(720).mean()`
calls skip missing values; an all-missing window gives a float `nan`, for which
the source's `min(1.0, nan/5)` evaluates to `1.0` and `max(0.0, nan - 25)` to
`0.0` (Python `min`/`max` keep the first argument on a false comparison); the
two length-zero branches below reproduce exactly those values. -/
def droughtRisk (df : List Meas) : ℚ :=
  if colPresent df "precipitation" && colPresent df "temperature" then
    let precipVals := vals (tailN 720 (column df "precipitation"))
    let tempVals := vals (tailN 720 (column df "temperature"))
    let precipRisk :=
      1 - (if precipVals.length = 0 then 1
           else min 1 (precipVals.sum / precipVals.length / 5))
    let tempRisk :=
      if tempVals.length = 0 then 0
      else min 1 (max 0 (tempVals.sum / tempVals.length - 25) / (35 - 25))
    (precipRisk + tempRisk) / 2
  else 0

/-- Storm block of `_assess_risks` (lines 209-215).  `tail(6).max()` skips
missing values and returns `nan` on an all-missing window, for which the
source's `min(1.0, nan/60)` is `1.0` (the `none` branch).  The pressure drop
is `tail(3).iloc[0] - tail(3).iloc[-1]`; if either entry is missing the drop is
`nan` and `max(0.0, nan)` is `0.0` (the `none` branch). -/
def stormRisk (df : List Meas) : ℚ :=
  if colPresent df "wind_speed" && colPresent df "pressure" then
    let windVals := vals (tailN 6 (column df "wind_speed"))
    let p3 := tailN 3 (column df "pressure")
    let windRisk :=
      match windVals.max? with
      | some m => min 1 (m / 60)
      | none => 1
    let pdrop : Option ℚ :=
      match p3.head?, p3.getLast? with
      | some (some a), some (some b) => some (a - b)
      | _, _ => none
    let pressureRisk :=
      min 1 ((match pdrop with | some d => max 0 d | none => 0) / 20)
    max windRisk pressureRisk
  else 0

/-- Extreme-temperature block of `_assess_risks` (lines 218-225): fractions of
the last-6 rows above 40 resp. below -20; a missing entry counts in the
denominator (`len(recent_temps)`) but never satisfies the comparison, exactly
as a float `nan` behaves in `recent_temps > threshold`. -/
def extremeTemperatureRisk (df : List Meas) : ℚ :=
  if colPresent df "temperature" then
    let recent := tailN 6 (column df "temperature")
    let heat := (recent.filter fun o =>
      match o with | some t => decide (t > 40) | none => false).length
    let cold := (recent.filter fun o =>
      match o with | some t => decide (t < -20) | none => false).length
    max ((heat : ℚ) / recent.length) ((cold : ℚ) / recent.length)
  else 0

/-- The full `_assess_risks`: the early return of all-zero scores on an empty
DataFrame, then the four independent hazard blocks. -/
def assessRisks (df : List Meas) : RiskScores :=
  if df.length = 0 then ⟨0, 0, 0, 0⟩
  else ⟨floodRisk df, droughtRisk df, stormRisk df, extremeTemperatureRisk df⟩

/-- Boolean list-prefix test used by the replacement loop. -/
def startsWith : List Char → List Char → Bool
  | [], _ => true
  | _ :: _, [] => false
  | p :: ps, c :: cs => p = c && startsWith ps cs

/-- Replace every occurrence of `pat` by `repl`, scanning left to right; the
fuel argument (instantiated with the list length) only makes the recursion
structural, one unit is spent per consumed character or pattern match. -/
def replaceFuel (pat repl : List Char) : ℕ → List Char → List Char
  | 0, l => l
  | _ + 1, [] => []
  | fuel + 1, c :: cs =>
    if startsWith pat (c :: cs) && !pat.isEmpty then
      repl ++ replaceFuel pat repl fuel (List.drop (pat.length - 1) cs)
    else c :: replaceFuel pat repl fuel cs

/-- Python `s.replace(pat, repl)`. -/
def pyReplace (s pat repl : String) : String :=
  ⟨replaceFuel pat.data repl.data s.data.length s.data⟩

/-- One alert record as created and stored by `_check_risk_thresholds` in
`scheduler.py` (alert_type, severity, and the risk score recorded both in
`conditions` and as `ai_confidence`). -/
structure AlertRecord where
  alert_type : String
  severity : String
  risk_level : ℚ
deriving Repr, DecidableEq

/-- The `risk_assessment.items()` sequence: the `_assess_risks` dict keys in
insertion order. -/
def riskItems (r : RiskScores) : List (String × ℚ) :=
  [("flood_risk", r.flood_risk), ("drought_risk", r.drought_risk),
   ("storm_risk", r.storm_risk), ("extreme_temperature_risk", r.extreme_temperature_risk)]

/-- The alert sweep `_check_risk_thresholds` (scheduler.py lines 183-217): for
every entry of the risk dict strictly above the 0.7 threshold, create and store
an alert whose type strips the `_risk` suffix and whose severity is `high` when
the score exceeds 0.8, else `medium`.  The returned list is the sequence of
records handed to the database session. -/
def checkRiskThresholds (r : RiskScores) : List AlertRecord :=
  (riskItems r).filterMap fun tv =>
    if tv.2 > 7/10 then
      some ⟨pyReplace tv.1 "_risk" "",
            if tv.2 > 8/10 then "high" else "medium", tv.2⟩
    else none

/-- Per-field summary statistics of `analyze_weather_patterns` (lines 102-108).
The source stores `std`, the sample standard deviation (pandas default
`ddof=1`); the model keeps its square `var` to stay in `ℚ`, with `none` for the
`NaN` that pandas yields on fewer than two samples. -/
structure FieldStats where
  mean : ℚ
  median : ℚ
  var : Option ℚ
  minv : ℚ
  maxv : ℚ
deriving Repr, DecidableEq

/-- Ascending sort used by the median and quantile computations. -/
def sortAsc (l : List ℚ) : List ℚ := List.insertionSort (· ≤ ·) l

/-- pandas median: middle element of the sorted values, or the average of the
two middle elements for an even count. -/
def median (l : List ℚ) : ℚ :=
  let s := sortAsc l
  let n := s.length
  if n % 2 = 1 then s.getD (n / 2) 0
  else (s.getD (n / 2 - 1) 0 + s.getD (n / 2) 0) / 2

/-- Sample variance with `ddof = 1` (the square of the pandas `std`); `none`
models the `NaN` returned for fewer than two samples. -/
def sampleVar (l : List ℚ) : Option ℚ :=
  if l.length < 2 then none
  else
    let μ := l.sum / l.length
    some ((l.map fun x => (x - μ) ^ 2).sum / ((l.length : ℚ) - 1))

/-- Summary statistics of one present column, over its non-missing values. -/
def fieldStats (l : List ℚ) : FieldStats :=
  ⟨l.sum / l.length, median l, sampleVar l, (l.min?).getD 0, (l.max?).getD 0⟩

/-- The `statistics` dict (lines 99-108): one entry per numerical column that
exists in the DataFrame, in `numerical_columns` order. -/
def computeStatistics (df : List Meas) : List (String × FieldStats) :=
  numericalColumns.filterMap fun c =>
    if colPresent df c then some (c, fieldStats (vals (column df c))) else none

/-- One trend entry of `_analyze_trends`.  `rate` is `none` for the `nan`
slope `np.polyfit` produces when the column contains a missing value. -/
structure Trend where
  direction : String
  rate : Option ℚ
  significance : String
deriving Repr, DecidableEq

/-- Slope of the ordinary-least-squares line of the values against their
positions 0..n-1, the degree-1 coefficient of `np.polyfit(range(n), ys, 1)`. -/
def olsSlope (l : List ℚ) : ℚ :=
  let n : ℚ := l.length
  let xs := (List.range l.length).map fun i => (i : ℚ)
  (n * (List.zipWith (· * ·) xs l).sum - xs.sum * l.sum) /
    (n * (xs.map fun x => x ^ 2).sum - xs.sum ^ 2)

/-- Trend entry for one column (`_analyze_trends` lines 130-145): direction
`increasing` iff the slope is positive, significance `high` iff its absolute
value exceeds the per-field threshold.  A missing value anywhere in the column
makes the `np.polyfit` slope `nan`, whose comparisons are all false. -/
def trendOf (col : Col) (sigThreshold : ℚ) : Trend :=
  if col.all (·.isSome) then
    let r := olsSlope (vals col)
    ⟨if r > 0 then "increasing" else "decreasing", some r,
     if |r| > sigThreshold then "high" else "low"⟩
  else ⟨"decreasing", none, "low"⟩

/-- The `trends` dict (`_analyze_trends`): temperature (threshold 0.5) and
precipitation (threshold 1.0) entries when more than one row exists.  The
batch is modelled as already timestamp-sorted with the timestamp column always
present, as every caller in the repository builds it. -/
def analyzeTrends (df : List Meas) : List (String × Trend) :=
  if df.length > 1 then
    (if colPresent df "temperature" then
      [("temperature", trendOf (column df "temperature") (1/2))] else []) ++
    (if colPresent df "precipitation" then
      [("precipitation", trendOf (column df "precipitation") 1)] else [])
  else []

/-- One anomaly entry of `_detect_anomalies` (lines 167-175); `atype` is the
`f"{col}_anomaly"` tag. -/
structure Anomaly where
  atype : String
  value : ℚ
  lower : ℚ
  upper : ℚ
  severity : String
deriving Repr, DecidableEq

/-- Natural-number floor of a nonnegative rational (only ever applied to the
nonnegative quantile positions `p * (n - 1)`). -/
def qfloorNat (q : ℚ) : ℕ := (⌊q⌋).toNat

/-- pandas `Series.quantile(p)` with the default linear interpolation: with the
values sorted ascending, position `h = p * (n - 1)` splits into integer part
`i` and fraction, and the result interpolates between elements `i` and
`i + 1`. -/
def quantile (l : List ℚ) (p : ℚ) : ℚ :=
  let s := sortAsc l
  let h := p * ((s.length : ℚ) - 1)
  let i := qfloorNat h
  let lo := s.getD i 0
  let hi := s.getD (i + 1) lo
  lo + (h - (i : ℚ)) * (hi - lo)

/-- Anomalies of one column (the loop body of `_detect_anomalies`): IQR bounds
from the quartiles of the non-missing values, every strictly-out-of-bounds
sample becomes an anomaly, severity `high` when the value is more than one
further IQR beyond the bound.  Missing rows never compare true against the
bounds, exactly like `nan` in the pandas filter. -/
def anomaliesFor (c : String) (col : Col) : List Anomaly :=
  let v := vals col
  let q1 := quantile v (1/4)
  let q3 := quantile v (3/4)
  let iqr := q3 - q1
  let lower := q1 - 3/2 * iqr
  let upper := q3 + 3/2 * iqr
  v.filterMap fun x =>
    if x < lower ∨ x > upper then
      some ⟨c ++ "_anomaly", x, lower, upper,
            if x < lower - iqr ∨ x > upper + iqr then "high" else "medium"⟩
    else none

/-- The full `_detect_anomalies`: per-column anomalies concatenated in
`numerical_columns` order. -/
def detectAnomalies (df : List Meas) : List Anomaly :=
  (numericalColumns.map fun c =>
    if colPresent df c then anomaliesFor c (column df c) else []).flatten

/-- Result shape of `analyze_weather_patterns`.  The empty-batch early return
is the dict `{"error": "No weather data provided"}`; a key absent from the
returned dict is modelled as `none` resp. the empty list, matching what every
caller reads back through `.get(key, default)`. -/
structure Analysis where
  error : Option String
  statistics : List (String × FieldStats)
  trends : List (String × Trend)
  anomalies : List Anomaly
  risk_assessment : Option RiskScores
deriving Repr, DecidableEq

/-- The `analyze_weather_patterns` entry point (lines 74-119). -/
def analyzeWeatherPatterns (df : List Meas) : Analysis :=
  if df.isEmpty then ⟨some "No weather data provided", [], [], [], none⟩
  else ⟨none, computeStatistics df, analyzeTrends df, detectAnomalies df,
        some (assessRisks df)⟩

/-- One per-field prediction entry of `generate_weather_prediction`; the
heuristic confidence is treated separately over `ℝ` (see `predConfidence`). -/
structure PredEntry where
  value : ℚ
  trend : ℚ
  direction : String
deriving Repr, DecidableEq

/-- The three most recent values of a column, `df[param].tail(3).values`, when
all three are present; a missing entry makes the whole arithmetic `nan` in the
source, modelled as `none`. -/
def last3 (col : Col) : Option (ℚ × ℚ × ℚ) :=
  match tailN 3 col with
  | [some a, some b, some c] => some (a, b, c)
  | _ => none

/-- Per-field body of the prediction loop (lines 252-258):
`trend = (v2 - v0) / 3` and `predicted_value = v2 + trend`. -/
def predictParam (col : Col) : Option PredEntry :=
  (last3 col).map fun v =>
    let t := (v.2.2 - v.1) / 3
    ⟨v.2.2 + t, t, if t > 0 then "increasing" else "decreasing"⟩

/-- A prediction result: the per-field predictions dict and the re-invoked risk
scores. -/
structure Prediction where
  predictions : List (String × PredEntry)
  risk_assessment : RiskScores
deriving Repr, DecidableEq

/-- The `generate_weather_prediction` entry point (lines 229-266): `none` is
the `{"error": ...}` early return on an empty history; with fewer than 3 rows
the predictions dict stays empty; otherwise one entry per present column. -/
def generateWeatherPrediction (df : List Meas) : Option Prediction :=
  if df.isEmpty then none
  else some
    { predictions :=
        if 3 ≤ df.length then
          numericalColumns.filterMap fun c =>
            if colPresent df c then
              (predictParam (column df c)).map fun e => (c, e)
            else none
        else []
      risk_assessment := assessRisks df }

/-- Python `str.lower()`. -/
def pyLower (s : String) : String := ⟨s.data.map Char.toLower⟩

/-- Python `str.title()` as used by the alert templates; on the single-word
lowercase severities the program passes in, this is exactly capitalisation of
the first character. -/
def pyTitle (s : String) : String := s.capitalize

/-- The `{title, description, instructions, duration}` record produced by the
alert text generation. -/
structure AlertContent where
  title : String
  description : String
  instructions : String
  duration : String
deriving Repr, DecidableEq

/-- The `templates["flood"]` entry of `_generate_template_alert`; `severity`
arrives already lowercased. -/
def floodTemplate (severity location : String) : AlertContent :=
  ⟨"Flood " ++ pyTitle severity ++ " Alert for " ++ location,
   "Heavy rainfall and rising water levels pose a flood risk in " ++ location ++
     ". Monitor local conditions and be prepared to evacuate if necessary.",
   "Move to higher ground, avoid flooded roads, and stay informed through official channels.",
   "Alert remains in effect until water levels recede."⟩

/-- The `templates["drought"]` entry of `_generate_template_alert`. -/
def droughtTemplate (severity location : String) : AlertContent :=
  ⟨"Drought " ++ pyTitle severity ++ " Alert for " ++ location,
   "Extended dry conditions and high temperatures are creating drought conditions in " ++
     location ++ ". Water conservation measures are recommended.",
   "Conserve water, avoid outdoor burning, and monitor local water restrictions.",
   "Alert continues until significant precipitation occurs."⟩

/-- The `templates["storm"]` entry of `_generate_template_alert`, also the
`templates.get` fallback for every other alert type. -/
def stormTemplate (severity location : String) : AlertContent :=
  ⟨"Severe Storm " ++ pyTitle severity ++ " Alert for " ++ location,
   "Dangerous weather conditions including high winds and heavy precipitation are expected in " ++
     location ++ ".",
   "Secure outdoor objects, avoid travel if possible, and stay indoors during the storm.",
   "Storm conditions expected for the next 6-12 hours."⟩

/-- The template fallback `_generate_template_alert` (lines 331-358): lowercase
the alert type and severity, then `templates.get(alert_type, templates["storm"])`. -/
def generateTemplateAlert (alert_type severity location : String) : AlertContent :=
  let t := pyLower alert_type
  let sev := pyLower severity
  if t = "flood" then floodTemplate sev location
  else if t = "drought" then droughtTemplate sev location
  else stormTemplate sev location

/-- The `generate_weather_alert` orchestration (lines 268-329): the text
formatter collaborator either succeeds with some parsed content, or its call
raises and the `except` branch falls back to the deterministic template. -/
def generateWeatherAlert (formatted : Option AlertContent)
    (alert_type severity location : String) : AlertContent :=
  match formatted with
  | some content => content
  | none => generateTemplateAlert alert_type severity location

/-- Mean of the three-value prediction window, over `ℝ` for the confidence
formula. -/
noncomputable def npMean3 (a b c : ℝ) : ℝ := (a + b + c) / 3

/-- Population variance (`np.std` default `ddof=0`) of the three-value
window. -/
noncomputable def npVar3 (a b c : ℝ) : ℝ :=
  ((a - npMean3 a b c) ^ 2 + (b - npMean3 a b c) ^ 2 + (c - npMean3 a b c) ^ 2) / 3

/-- The `np.std(recent_values)` of the prediction loop. -/
noncomputable def npStd3 (a b c : ℝ) : ℝ := Real.sqrt (npVar3 a b c)

/-- The predictor confidence of line 259:
`0.7 + 0.2 * (1 - abs(trend) / (np.std(recent_values) + 1e-6))` with
`trend = (c - a) / 3` over the window `[a, b, c]`. -/
noncomputable def predConfidence (a b c : ℝ) : ℝ :=
  0.7 + 0.2 * (1 - |(c - a) / 3| / (npStd3 a b c + 1 / 1000000))

/-- A string with positive length is not the empty string. -/
lemma str_ne_empty_of_length_pos (s : String) (h : 0 < s.length) : s ≠ "" := by
  intro he
  rw [he] at h
  exact absurd h (by decide)

/-- Every field of each of the three alert templates is a non-empty string,
for every severity and location. -/
lemma template_fields_ne (sev loc : String) :
    ((floodTemplate sev loc).title ≠ "" ∧ (floodTemplate sev loc).description ≠ "" ∧
      (floodTemplate sev loc).instructions ≠ "" ∧ (floodTemplate sev loc).duration ≠ "") ∧
    ((droughtTemplate sev loc).title ≠ "" ∧ (droughtTemplate sev loc).description ≠ "" ∧
      (droughtTemplate sev loc).instructions ≠ "" ∧ (droughtTemplate sev loc).duration ≠ "") ∧
    ((stormTemplate sev loc).title ≠ "" ∧ (stormTemplate sev loc).description ≠ "" ∧
      (stormTemplate sev loc).instructions ≠ "" ∧ (stormTemplate sev loc).duration ≠ "") := by
  refine ⟨⟨?_, ?_, ?_, ?_⟩, ⟨?_, ?_, ?_, ?_⟩, ⟨?_, ?_, ?_, ?_⟩⟩ <;>
    apply str_ne_empty_of_length_pos <;>
    simp only [floodTemplate, droughtTemplate, stormTemplate, String.length_append] <;>
    · first
      | decide
      | (have h1 : 0 < "Flood ".length := by decide
         have h2 : 0 < "Drought ".length := by decide
         have h3 : 0 < "Severe Storm ".length := by decide
         have h4 : 0 < "Heavy rainfall and rising water levels pose a flood risk in ".length := by
           decide
         have h5 : 0 < "Extended dry conditions and high temperatures are creating drought conditions in ".length := by
           decide
         have h6 : 0 < "Dangerous weather conditions including high winds and heavy precipitation are expected in ".length := by
           decide
         omega)

/-- The template fallback always returns one of the three template records,
with the lowercased severity. -/
lemma generateTemplateAlert_cases (t sev loc : String) :
    generateTemplateAlert t sev loc = floodTemplate (pyLower sev) loc ∨
    generateTemplateAlert t sev loc = droughtTemplate (pyLower sev) loc ∨
    generateTemplateAlert t sev loc = stormTemplate (pyLower sev) loc := by
  by_cases h1 : pyLower t = "flood" <;> by_cases h2 : pyLower t = "drought" <;>
    simp [generateTemplateAlert, h1, h2]

/-- C5: the Statistical Analyzer on the empty batch returns the explicit
"no data" value (the `{"error": "No weather data provided"}` dict) with
empty statistics, empty trends and empty anomalies, rather than raising. -/
theorem c5_empty_batch_no_data :
    analyzeWeatherPatterns [] = ⟨some "No weather data provided", [], [], [], none⟩ ∧
    (analyzeWeatherPatterns []).statistics = [] ∧
    (analyzeWeatherPatterns []).trends = [] ∧
    (analyzeWeatherPatterns []).anomalies = [] :=
  ⟨rfl, rfl, rfl, rfl⟩

/-- C3: when the text-formatter call fails, alert generation returns the
deterministic template keyed by hazard type, and the returned record has
non-empty title and description. -/
theorem c3_formatter_failure_template (alert_type severity location : String) :
    generateWeatherAlert none alert_type severity location =
      generateTemplateAlert alert_type severity location ∧
    (generateWeatherAlert none alert_type severity location).title ≠ "" ∧
    (generateWeatherAlert none alert_type severity location).description ≠ "" := by
  refine ⟨rfl, ?_, ?_⟩ <;>
  · show _ ≠ ""
    have hc := generateTemplateAlert_cases alert_type severity location
    have hf := template_fields_ne (pyLower severity) location
    rcases hc with h | h | h <;>
      simp only [generateWeatherAlert, h] <;>
      first
        | exact hf.1.1
        | exact hf.1.2.1
        | exact hf.2.1.1
        | exact hf.2.1.2.1
        | exact hf.2.2.1
        | exact hf.2.2.2.1

/-- C10: for every alert type outside flood/drought/storm (in particular
"extreme_temperature") the template fallback returns the storm template, so
the alert's title reads "Severe Storm ... Alert for ..." and names a hazard
different from the one that triggered it, while all four fields remain
non-empty. -/
theorem c10_unknown_type_storm_template (t sev loc : String)
    (h : pyLower t ∉ (["flood", "drought", "storm"] : List String)) :
    generateTemplateAlert t sev loc = stormTemplate (pyLower sev) loc ∧
    (generateTemplateAlert t sev loc).title =
      "Severe Storm " ++ pyTitle (pyLower sev) ++ " Alert for " ++ loc ∧
    (generateTemplateAlert t sev loc).title ≠ "" ∧
    (generateTemplateAlert t sev loc).description ≠ "" ∧
    (generateTemplateAlert t sev loc).instructions ≠ "" ∧
    (generateTemplateAlert t sev loc).duration ≠ "" := by
  simp only [List.mem_cons, List.not_mem_nil, or_false, not_or] at h
  obtain ⟨h1, h2, -⟩ := h
  have he : generateTemplateAlert t sev loc = stormTemplate (pyLower sev) loc := by
    simp [generateTemplateAlert, h1, h2]
  have hf := (template_fields_ne (pyLower sev) loc).2.2
  refine ⟨he, ?_, ?_, ?_, ?_, ?_⟩ <;> rw [he]
  · rfl
  · exact hf.1
  · exact hf.2.1
  · exact hf.2.2.1
  · exact hf.2.2.2

/-- Witness for C10 at the concrete alert type "extreme_temperature". -/
theorem c10_witness :
    generateTemplateAlert "extreme_temperature" "high" "Denver, US" =
      stormTemplate (pyLower "high") "Denver, US" ∧
    (generateTemplateAlert "extreme_temperature" "high" "Denver, US").title =
      "Severe Storm " ++ pyTitle (pyLower "high") ++ " Alert for " ++ "Denver, US" ∧
    (generateTemplateAlert "extreme_temperature" "high" "Denver, US").title ≠ "" ∧
    (generateTemplateAlert "extreme_temperature" "high" "Denver, US").description ≠ "" ∧
    (generateTemplateAlert "extreme_temperature" "high" "Denver, US").instructions ≠ "" ∧
    (generateTemplateAlert "extreme_temperature" "high" "Denver, US").duration ≠ "" :=
  c10_unknown_type_storm_template "extreme_temperature" "high" "Denver, US" (by decide)

/-- Batch of exactly 3 points with temperature values 20, 22, 25 (the spec's
Predictor scenario). -/
def tempBatch3 : List Meas :=
  [⟨some 20, none, none, none, none⟩,
   ⟨some 22, none, none, none, none⟩,
   ⟨some 25, none, none, none, none⟩]

/-- C4: the Predictor computes, for each field whose three most recent values
are v0, v1, v2, trend = (v2 - v0) / 3 and predicted value v2 + trend; on the
[20, 22, 25] temperature scenario this gives trend 5/3 and prediction 80/3
(26.667); and a non-empty batch with fewer than 3 points yields an empty
predictions map rather than an error. -/
theorem c4_predictor_trend_extrapolation :
    (∀ (col : Col) (a b c : ℚ), tailN 3 col = [some a, some b, some c] →
        predictParam col = some ⟨c + (c - a) / 3, (c - a) / 3,
          if (c - a) / 3 > 0 then "increasing" else "decreasing"⟩) ∧
    (∃ p, generateWeatherPrediction tempBatch3 = some p ∧
        p.predictions = [("temperature", ⟨80/3, 5/3, "increasing"⟩)]) ∧
    (∀ df : List Meas, df ≠ [] → df.length < 3 →
        ∃ p, generateWeatherPrediction df = some p ∧ p.predictions = []) := by
  refine ⟨?_, ?_, ?_⟩
  · intro col a b c h
    simp [predictParam, last3, h]
  · have hpred : predictParam (column tempBatch3 "temperature") =
        some ⟨80/3, 5/3, "increasing"⟩ := by
      have hT : column tempBatch3 "temperature" = [some 20, some 22, some 25] := rfl
      rw [hT]
      simp only [predictParam, last3, tailN]
      norm_num
    refine ⟨⟨[("temperature", ⟨80/3, 5/3, "increasing"⟩)], assessRisks tempBatch3⟩, ?_, rfl⟩
    simp only [generateWeatherPrediction,
      show tempBatch3.isEmpty = false from rfl, Bool.false_eq_true, if_false,
      show (3 ≤ tempBatch3.length) = True from by simp [tempBatch3], if_true]
    simp [numericalColumns, hpred,
      show colPresent tempBatch3 "temperature" = true from by decide,
      show colPresent tempBatch3 "humidity" = false from by decide,
      show colPresent tempBatch3 "pressure" = false from by decide,
      show colPresent tempBatch3 "wind_speed" = false from by decide,
      show colPresent tempBatch3 "precipitation" = false from by decide]
  · intro df hne hlt
    refine ⟨⟨[], assessRisks df⟩, ?_, rfl⟩
    simp only [generateWeatherPrediction]
    rw [if_neg (by simpa using hne), if_neg (by omega)]

/-- Witness for C4, applying the per-field formula at the concrete window
[2, 3, 7]. -/
theorem c4_witness :
    predictParam [some 2, some 3, some 7] = some ⟨7 + (7 - 2) / 3, (7 - 2) / 3,
      if ((7:ℚ) - 2) / 3 > 0 then "increasing" else "decreasing"⟩ :=
  c4_predictor_trend_extrapolation.1 [some 2, some 3, some 7] 2 3 7 rfl

/-- The spec's flood scenario: 24 hourly samples, each with precipitation
3.0 mm and no other fields. -/
def houstonBatch : List Meas := List.replicate 24 ⟨none, none, none, none, some 3⟩

/-- Stripping the `_risk` suffix from the flood key. -/
lemma pyReplace_flood : pyReplace "flood_risk" "_risk" "" = "flood" := by decide

/-- Risk scores of the Houston scenario batch: total precipitation 72 mm over
the last 24 samples gives flood risk min(1, 72/50) = 1; every other hazard
lacks its required columns and scores 0. -/
lemma houston_risks : assessRisks houstonBatch = ⟨1, 0, 0, 0⟩ := by
  have hlen : houstonBatch.length = 24 := by decide
  have hp : colPresent houstonBatch "precipitation" = true := by decide
  have ht : colPresent houstonBatch "temperature" = false := by decide
  have hw : colPresent houstonBatch "wind_speed" = false := by decide
  have hsum : (vals (tailN 24 (column houstonBatch "precipitation"))).sum = 72 := by
    simp [houstonBatch, vals, tailN, column, colOf, List.replicate]
    norm_num
  simp only [assessRisks, hlen, floodRisk, droughtRisk, stormRisk,
    extremeTemperatureRisk, hp, ht, hw, hsum, Bool.false_eq_true, Bool.true_and,
    Bool.false_and, if_true, if_false]
  norm_num

/-- C1: for every risk assessment, every hazard whose score strictly exceeds
the 0.7 alert threshold yields a stored alert record whose type drops the
`_risk` suffix and whose severity is "high" when the score exceeds 0.8 and
"medium" otherwise; and the Houston scenario batch (24 samples of 3.0 mm
precipitation) has flood risk min(1, 72/50) = 1 and produces exactly one
alert — a flood alert of severity "high". -/
theorem c1_alert_sweep :
    (∀ (r : RiskScores) (t : String) (v : ℚ), (t, v) ∈ riskItems r → v > 7/10 →
        (⟨pyReplace t "_risk" "", if v > 8/10 then "high" else "medium", v⟩ : AlertRecord) ∈
          checkRiskThresholds r) ∧
    (assessRisks houstonBatch).flood_risk = 1 ∧
    checkRiskThresholds (assessRisks houstonBatch) = [⟨"flood", "high", (1 : ℚ)⟩] := by
  refine ⟨?_, ?_, ?_⟩
  · intro r t v hmem hv
    exact List.mem_filterMap.mpr ⟨(t, v), hmem, by simp [hv]⟩
  · rw [houston_risks]
  · rw [houston_risks]
    simp only [checkRiskThresholds, riskItems, List.filterMap]
    norm_num [pyReplace_flood]

/-- Witness for C1: the membership contract applied to the concrete risk
vector with flood score 1. -/
theorem c1_witness :
    (⟨pyReplace "flood_risk" "_risk" "",
      if (1 : ℚ) > 8/10 then "high" else "medium", (1 : ℚ)⟩ : AlertRecord) ∈
      checkRiskThresholds ⟨1, 0, 0, 0⟩ :=
  c1_alert_sweep.1 ⟨1, 0, 0, 0⟩ "flood_risk" 1 (by decide)
    ((div_lt_one (by decide)).mpr (by decide))

/-- A batch whose every measurement lacks the temperature field has no
temperature column. -/
lemma colPresent_temperature_false (df : List Meas)
    (h : ∀ m ∈ df, m.temperature = none) :
    colPresent df "temperature" = false := by
  rw [colPresent, List.any_eq_false]
  intro o ho
  obtain ⟨m, hm, rfl⟩ := List.mem_map.mp ho
  have : colOf "temperature" m = m.temperature := rfl
  rw [this, h m hm]
  simp

/-- C6: on every non-empty batch in which the temperature field is null in
every measurement, pattern analysis is total (no crash), the statistics dict
has no "temperature" entry at all, and the extreme-temperature risk is
exactly 0. -/
theorem c6_all_null_temperature (df : List Meas) (hne : df ≠ [])
    (h : ∀ m ∈ df, m.temperature = none) :
    (∀ e ∈ computeStatistics df, e.1 ≠ "temperature") ∧
    (assessRisks df).extreme_temperature_risk = 0 := by
  have hpres := colPresent_temperature_false df h
  constructor
  · intro e he heq
    obtain ⟨c, hc, hif⟩ := List.mem_filterMap.mp he
    by_cases hcp : colPresent df c = true
    · rw [if_pos hcp] at hif
      have hc1 : e.1 = c := by
        cases hif
        rfl
      rw [hc1] at heq
      rw [heq] at hcp
      rw [hpres] at hcp
      exact absurd hcp (by decide)
    · rw [if_neg hcp] at hif
      exact absurd hif (by simp)
  · have hlen : ¬ df.length = 0 := by
      simpa [List.length_eq_zero] using hne
    simp only [assessRisks, if_neg hlen, extremeTemperatureRisk, hpres,
      Bool.false_eq_true, if_false]

/-- Witness for C6 at a one-element batch carrying only precipitation. -/
theorem c6_witness :
    (∀ e ∈ computeStatistics [(⟨none, none, none, none, some 5⟩ : Meas)],
        e.1 ≠ "temperature") ∧
    (assessRisks [(⟨none, none, none, none, some 5⟩ : Meas)]).extreme_temperature_risk = 0 :=
  c6_all_null_temperature [⟨none, none, none, none, some 5⟩] (by decide) (by decide)

/-- Values of a tail window are values of the whole column. -/
lemma vals_tail_mem {col : Col} {n : ℕ} {x : ℚ} (hx : x ∈ vals (tailN n col)) :
    x ∈ vals col := by
  rw [vals, List.mem_filterMap] at hx ⊢
  obtain ⟨o, ho, hid⟩ := hx
  exact ⟨o, List.mem_of_mem_drop ho, hid⟩

/-- Nonnegative per-measurement precipitation gives nonnegative column
values. -/
lemma precip_vals_nonneg {df : List Meas} (h : ∀ m ∈ df, 0 ≤ m.precipitation.getD 0) :
    ∀ x ∈ vals (column df "precipitation"), 0 ≤ x := by
  intro x hx
  rw [vals, List.mem_filterMap] at hx
  obtain ⟨o, ho, hid⟩ := hx
  obtain ⟨m, hm, rfl⟩ := List.mem_map.mp ho
  have hc : colOf "precipitation" m = m.precipitation := rfl
  rw [hc] at hid
  simp only [id] at hid
  have hp := h m hm
  rw [hid] at hp
  simpa using hp

/-- Flood risk bounds under nonnegative precipitation. -/
lemma floodRisk_bounds {df : List Meas} (h : ∀ m ∈ df, 0 ≤ m.precipitation.getD 0) :
    0 ≤ floodRisk df ∧ floodRisk df ≤ 1 := by
  rw [floodRisk]
  split
  · have hs : 0 ≤ (vals (tailN 24 (column df "precipitation"))).sum :=
      List.sum_nonneg fun x hx => precip_vals_nonneg h x (vals_tail_mem hx)
    exact ⟨le_min zero_le_one (by positivity), min_le_left _ _⟩
  · exact ⟨le_refl 0, zero_le_one⟩

/-- The precipitation-deficit sub-score of drought risk lies in [0, 1] when
the window sum is nonnegative. -/
lemma precipSub_bounds (l : List ℚ) (hs : 0 ≤ l.sum) :
    0 ≤ (1 - (if l.length = 0 then 1 else min 1 (l.sum / l.length / 5)) : ℚ) ∧
    (1 - (if l.length = 0 then 1 else min 1 (l.sum / l.length / 5)) : ℚ) ≤ 1 := by
  split
  · norm_num
  · have h1 : min 1 (l.sum / (l.length : ℚ) / 5) ≤ 1 := min_le_left _ _
    have h0 : (0:ℚ) ≤ min 1 (l.sum / (l.length : ℚ) / 5) :=
      le_min zero_le_one (by positivity)
    constructor <;> linarith

/-- The temperature-excess sub-score of drought risk always lies in [0, 1]. -/
lemma tempSub_bounds (l : List ℚ) :
    0 ≤ (if l.length = 0 then 0
        else min 1 (max 0 (l.sum / l.length - 25) / (35 - 25)) : ℚ) ∧
    (if l.length = 0 then 0
        else min 1 (max 0 (l.sum / l.length - 25) / (35 - 25)) : ℚ) ≤ 1 := by
  split
  · norm_num
  · have h0 : (0:ℚ) ≤ max 0 (l.sum / (l.length : ℚ) - 25) / (35 - 25) := by positivity
    exact ⟨le_min zero_le_one h0, min_le_left _ _⟩

/-- Drought risk bounds under nonnegative precipitation. -/
lemma droughtRisk_bounds {df : List Meas} (h : ∀ m ∈ df, 0 ≤ m.precipitation.getD 0) :
    0 ≤ droughtRisk df ∧ droughtRisk df ≤ 1 := by
  rw [droughtRisk]
  split
  · dsimp only
    have hp := precipSub_bounds (vals (tailN 720 (column df "precipitation")))
      (List.sum_nonneg fun x hx => precip_vals_nonneg h x (vals_tail_mem hx))
    have ht := tempSub_bounds (vals (tailN 720 (column df "temperature")))
    constructor <;> linarith [hp.1, ht.1, hp.2, ht.2]
  · exact ⟨le_refl 0, zero_le_one⟩

/-- Storm risk always lies in [0, 1], whatever the inputs: the wind sub-score
is capped at 1 (the all-missing-window branch returns exactly 1) and the
pressure sub-score is clamped into [0, 1] by the max-with-0 and min-with-1. -/
lemma wind_sub_le_one (o : Option ℚ) :
    (match o with | some m => min 1 (m / 60) | none => (1:ℚ)) ≤ 1 := by
  cases o with
  | none => exact le_refl 1
  | some m => exact min_le_left _ _

lemma pressure_sub_nonneg (o : Option ℚ) :
    (0:ℚ) ≤ min 1 ((match o with | some d => max 0 d | none => 0) / 20) := by
  refine le_min zero_le_one ?_
  cases o with
  | none => norm_num
  | some d => positivity

lemma stormRisk_bounds (df : List Meas) : 0 ≤ stormRisk df ∧ stormRisk df ≤ 1 := by
  rw [stormRisk]
  split
  · dsimp only
    exact ⟨le_trans (pressure_sub_nonneg _) (le_max_right _ _),
           max_le (wind_sub_le_one _) (min_le_left _ _)⟩
  · exact ⟨le_refl 0, zero_le_one⟩

/-- Extreme-temperature risk always lies in [0, 1]: both fractions are counts
of a filtered list over its length. -/
lemma extremeTemperatureRisk_bounds (df : List Meas) :
    0 ≤ extremeTemperatureRisk df ∧ extremeTemperatureRisk df ≤ 1 := by
  rw [extremeTemperatureRisk]
  split
  · set recent := tailN 6 (column df "temperature") with hrec
    have hfrac : ∀ p : Option ℚ → Bool,
        0 ≤ ((recent.filter p).length : ℚ) / (recent.length : ℚ) ∧
        ((recent.filter p).length : ℚ) / (recent.length : ℚ) ≤ 1 := by
      intro p
      rcases Nat.eq_zero_or_pos recent.length with hz | hpos
      · have : (recent.filter p).length = 0 :=
          Nat.le_zero.mp (hz ▸ List.length_filter_le p recent)
        rw [this, hz]
        norm_num
      · have hle : ((recent.filter p).length : ℚ) ≤ (recent.length : ℚ) := by
          exact_mod_cast List.length_filter_le p recent
        have hq : (0:ℚ) < (recent.length : ℚ) := by exact_mod_cast hpos
        exact ⟨by positivity, (div_le_one hq).mpr hle⟩
    exact ⟨le_trans (hfrac _).1 (le_max_left _ _),
           max_le (hfrac _).2 (hfrac _).2⟩
  · exact ⟨le_refl 0, zero_le_one⟩

/-- C2 counterexample: a one-sample batch with precipitation -10 mm gives
flood risk min(1, -10/50) = -1/5, strictly below 0, so the claim that every
score lies in [0, 1] for inputs of any sign fails on the code. -/
theorem c2_counterexample :
    (assessRisks [(⟨none, none, none, none, some (-10)⟩ : Meas)]).flood_risk = -1/5 ∧
    ¬ (0 ≤ (assessRisks [(⟨none, none, none, none, some (-10)⟩ : Meas)]).flood_risk) := by
  have hf : (assessRisks [(⟨none, none, none, none, some (-10)⟩ : Meas)]).flood_risk
      = -1/5 := by
    have hp : colPresent [(⟨none, none, none, none, some (-10)⟩ : Meas)]
        "precipitation" = true := by decide
    have hs : (vals (tailN 24 (column [(⟨none, none, none, none, some (-10)⟩ : Meas)]
        "precipitation"))).sum = -10 := by
      simp [vals, tailN, column, colOf]
    simp only [assessRisks, List.length_cons, List.length_nil, floodRisk, hp, hs, if_true]
    norm_num [min_eq_right]
  exact ⟨hf, by rw [hf]; norm_num⟩

/-- C2 amended: storm and extreme-temperature risk are unconditionally in
[0, 1]; flood and drought risk are in [0, 1] provided every present
precipitation value in the batch is nonnegative (the counterexample shows the
original unrestricted claim fails for negative precipitation). -/
theorem c2_amended (df : List Meas) (h : ∀ m ∈ df, 0 ≤ m.precipitation.getD 0) :
    (0 ≤ (assessRisks df).flood_risk ∧ (assessRisks df).flood_risk ≤ 1) ∧
    (0 ≤ (assessRisks df).drought_risk ∧ (assessRisks df).drought_risk ≤ 1) ∧
    (0 ≤ (assessRisks df).storm_risk ∧ (assessRisks df).storm_risk ≤ 1) ∧
    (0 ≤ (assessRisks df).extreme_temperature_risk ∧
      (assessRisks df).extreme_temperature_risk ≤ 1) := by
  rw [assessRisks]
  split
  · norm_num
  · exact ⟨floodRisk_bounds h, droughtRisk_bounds h, stormRisk_bounds df,
      extremeTemperatureRisk_bounds df⟩

/-- Witness for C2 amended at the Houston scenario batch. -/
theorem c2_witness :
    (0 ≤ (assessRisks houstonBatch).flood_risk ∧ (assessRisks houstonBatch).flood_risk ≤ 1) ∧
    (0 ≤ (assessRisks houstonBatch).drought_risk ∧
      (assessRisks houstonBatch).drought_risk ≤ 1) ∧
    (0 ≤ (assessRisks houstonBatch).storm_risk ∧ (assessRisks houstonBatch).storm_risk ≤ 1) ∧
    (0 ≤ (assessRisks houstonBatch).extreme_temperature_risk ∧
      (assessRisks houstonBatch).extreme_temperature_risk ≤ 1) :=
  c2_amended houstonBatch (by decide)

/-- Raising the appended last element raises the maximum of the list. -/
lemma max?_append_mono (W : List ℚ) {x y : ℚ} (hxy : x ≤ y) :
    ∃ a b, (W ++ [x]).max? = some a ∧ (W ++ [y]).max? = some b ∧ a ≤ b := by
  cases W with
  | nil => exact ⟨x, y, rfl, rfl, hxy⟩
  | cons w W' =>
    refine ⟨max (W'.foldl max w) x, max (W'.foldl max w) y, ?_, ?_,
      max_le_max (le_refl _) hxy⟩ <;>
    · rw [List.cons_append]
      show some (List.foldl max w (W' ++ [_])) = _
      rw [List.foldl_append]
      rfl

/-- The storm component of `_assess_risks` on a non-empty batch. -/
lemma assessRisks_storm (df : List Meas) (h : ¬ df.length = 0) :
    (assessRisks df).storm_risk = stormRisk df := by
  rw [assessRisks, if_neg h]

/-- C8: two batches identical except that the last sample's wind speed is
raised from 10 to 100 km/h satisfy storm risk (second) ≥ storm risk (first). -/
theorem c8_storm_recency_mono (ms : List Meas) (m : Meas) (h : m.wind_speed = some 10) :
    (assessRisks (ms ++ [{m with wind_speed := some 100}])).storm_risk ≥
      (assessRisks (ms ++ [m])).storm_risk := by
  set m' : Meas := {m with wind_speed := some 100} with hm'
  have hlen1 : ¬ (ms ++ [m]).length = 0 := by simp
  have hlen2 : ¬ (ms ++ [m']).length = 0 := by simp
  rw [assessRisks_storm _ hlen1, assessRisks_storm _ hlen2]
  have hcw1 : column (ms ++ [m]) "wind_speed" = column ms "wind_speed" ++ [some 10] := by
    rw [column, List.map_append]
    show _ ++ [colOf "wind_speed" m] = _ ++ [some 10]
    rw [show colOf "wind_speed" m = m.wind_speed from rfl, h]
    rfl
  have hcw2 : column (ms ++ [m']) "wind_speed" = column ms "wind_speed" ++ [some 100] := by
    rw [column, List.map_append]
    rfl
  have hcp : column (ms ++ [m']) "pressure" = column (ms ++ [m]) "pressure" := by
    rw [column, column, List.map_append, List.map_append]
    rfl
  have hw1 : colPresent (ms ++ [m]) "wind_speed" = true := by
    rw [colPresent, hcw1, List.any_append]
    simp
  have hw2 : colPresent (ms ++ [m']) "wind_speed" = true := by
    rw [colPresent, hcw2, List.any_append]
    simp
  have hpp : colPresent (ms ++ [m']) "pressure" = colPresent (ms ++ [m]) "pressure" := by
    rw [colPresent, colPresent, hcp]
  by_cases hp : colPresent (ms ++ [m]) "pressure" = true
  · rw [stormRisk, stormRisk, hcw1, hcw2, hcp, if_pos (by simp [hw1, hw2, hpp, hp]),
      if_pos (by simp [hw1, hw2, hpp, hp])]
    dsimp only
    have htail : ∀ v : ℚ, tailN 6 (column ms "wind_speed" ++ [some v]) =
        (column ms "wind_speed").drop ((column ms "wind_speed").length + 1 - 6) ++ [some v] := by
      intro v
      rw [tailN, List.length_append]
      simp only [List.length_cons, List.length_nil, Nat.zero_add]
      exact List.drop_append_of_le_length (by omega)
    have hvals : ∀ v : ℚ, vals ((column ms "wind_speed").drop
        ((column ms "wind_speed").length + 1 - 6) ++ [some v]) =
        vals ((column ms "wind_speed").drop ((column ms "wind_speed").length + 1 - 6)) ++ [v] := by
      intro v
      rw [vals, List.filterMap_append]
      rfl
    rw [htail 10, htail 100, hvals 10, hvals 100]
    obtain ⟨a, b, ha, hb, hab⟩ := max?_append_mono
      (vals ((column ms "wind_speed").drop ((column ms "wind_speed").length + 1 - 6)))
      (show (10:ℚ) ≤ 100 by norm_num)
    rw [ha, hb]
    exact max_le_max (min_le_min (le_refl 1) (by gcongr)) (le_refl _)
  · rw [stormRisk, stormRisk, if_neg (by rw [hpp]; simp [hp]), if_neg (by simp [hp])]

/-- Witness for C8 at a one-sample batch with pressure 1000 and wind 10. -/
theorem c8_witness :
    (assessRisks ([] ++ [{ (⟨none, none, some 1000, some 10, none⟩ : Meas) with
        wind_speed := some 100 }])).storm_risk ≥
      (assessRisks ([] ++ [(⟨none, none, some 1000, some 10, none⟩ : Meas)])).storm_risk :=
  c8_storm_recency_mono [] ⟨none, none, some 1000, some 10, none⟩ rfl

/-- Quartiles of a list whose sorted form is a single element: both equal that
element. -/
lemma quantile_len1 (v : List ℚ) (a : ℚ) (hs : sortAsc v = [a]) :
    quantile v (1/4) = a ∧ quantile v (3/4) = a := by
  constructor <;>
  · rw [quantile, hs]
    norm_num [qfloorNat, List.getD]

/-- Quartiles of a list whose sorted form has two elements: the interpolated
quarter points. -/
lemma quantile_len2 (v : List ℚ) (a b : ℚ) (hs : sortAsc v = [a, b]) :
    quantile v (1/4) = a + 1/4 * (b - a) ∧ quantile v (3/4) = a + 3/4 * (b - a) := by
  constructor <;>
  · rw [quantile, hs]
    norm_num [qfloorNat, List.getD]

/-- Quartiles of a list whose sorted form has three elements: the midpoints of
the outer pairs. -/
lemma quantile_len3 (v : List ℚ) (a b c : ℚ) (hs : sortAsc v = [a, b, c]) :
    quantile v (1/4) = a + 1/2 * (b - a) ∧ quantile v (3/4) = b + 1/2 * (c - b) := by
  constructor <;>
  · rw [quantile, hs]
    norm_num [qfloorNat, List.getD]

/-- With fewer than 4 samples, every sample lies inside the IQR fence. -/
lemma small_sample_in_bounds (v : List ℚ) (hlen : v.length < 4) :
    ∀ x ∈ v, quantile v (1/4) - 3/2 * (quantile v (3/4) - quantile v (1/4)) ≤ x ∧
      x ≤ quantile v (3/4) + 3/2 * (quantile v (3/4) - quantile v (1/4)) := by
  intro x hx
  have hperm : (sortAsc v).Perm v := List.perm_insertionSort _ v
  have hsort : List.Sorted (· ≤ ·) (sortAsc v) := List.sorted_insertionSort _ v
  have hxs : x ∈ sortAsc v := hperm.mem_iff.mpr hx
  have hlen' : (sortAsc v).length < 4 := hperm.length_eq ▸ hlen
  match hS : sortAsc v with
  | [] =>
    rw [hS] at hxs
    exact absurd hxs (List.not_mem_nil x)
  | [a] =>
    obtain ⟨h1, h3⟩ := quantile_len1 v a hS
    rw [hS] at hxs
    obtain rfl : x = a := by simpa using hxs
    rw [h1, h3]
    constructor <;> linarith
  | [a, b] =>
    obtain ⟨h1, h3⟩ := quantile_len2 v a b hS
    rw [hS] at hsort hxs
    have hab : a ≤ b := by simpa [List.sorted_cons] using hsort
    rw [h1, h3]
    rcases (by simpa using hxs : x = a ∨ x = b) with rfl | rfl <;>
      constructor <;> linarith
  | [a, b, c] =>
    obtain ⟨h1, h3⟩ := quantile_len3 v a b c hS
    rw [hS] at hsort hxs
    obtain ⟨hab, hbc⟩ : (a ≤ b ∧ a ≤ c) ∧ b ≤ c := by
      simpa [List.sorted_cons] using hsort
    rw [h1, h3]
    rcases (by simpa using hxs : x = a ∨ x = b ∨ x = c) with rfl | rfl | rfl <;>
      constructor <;> linarith [hab.1, hab.2]
  | _ :: _ :: _ :: _ :: _ =>
    rw [hS] at hlen'
    simp at hlen'
    omega

/-- C7: a field with fewer than 4 samples yields no anomalies (in particular a
batch all of whose fields are short yields an empty anomaly list), and every
reported anomaly lies strictly outside the fence
[Q1 - 1.5 IQR, Q3 + 1.5 IQR] recorded in it, with severity "high" exactly when
the value is more than one further IQR beyond the fence. -/
theorem c7_iqr_anomaly_bounds :
    (∀ (c : String) (col : Col), (vals col).length < 4 → anomaliesFor c col = []) ∧
    (∀ df : List Meas, (∀ c ∈ numericalColumns, (vals (column df c)).length < 4) →
        detectAnomalies df = []) ∧
    (∀ (c : String) (col : Col) (a : Anomaly), a ∈ anomaliesFor c col →
        a.lower = quantile (vals col) (1/4) -
          3/2 * (quantile (vals col) (3/4) - quantile (vals col) (1/4)) ∧
        a.upper = quantile (vals col) (3/4) +
          3/2 * (quantile (vals col) (3/4) - quantile (vals col) (1/4)) ∧
        (a.value < a.lower ∨ a.upper < a.value) ∧
        (a.severity = "high" ↔
          (a.value < a.lower - (quantile (vals col) (3/4) - quantile (vals col) (1/4)) ∨
           a.upper + (quantile (vals col) (3/4) - quantile (vals col) (1/4)) < a.value))) := by
  have key : ∀ (c : String) (col : Col), (vals col).length < 4 →
      anomaliesFor c col = [] := by
    intro c col hlen
    rw [anomaliesFor]
    rw [List.filterMap_eq_nil_iff]
    intro x hx
    have hb := small_sample_in_bounds (vals col) hlen x hx
    rw [if_neg]
    push_neg
    exact ⟨by linarith [hb.1], by linarith [hb.2]⟩
  refine ⟨key, ?_, ?_⟩
  · intro df hshort
    rw [detectAnomalies, List.flatten_eq_nil_iff]
    intro l hl
    obtain ⟨c, hc, rfl⟩ := List.mem_map.mp hl
    split
    · exact key c (column df c) (hshort c hc)
    · rfl
  · intro c col a ha
    rw [anomaliesFor] at ha
    obtain ⟨x, hx, hsome⟩ := List.mem_filterMap.mp ha
    by_cases hcond : x < quantile (vals col) (1/4) -
        3/2 * (quantile (vals col) (3/4) - quantile (vals col) (1/4)) ∨
        x > quantile (vals col) (3/4) +
          3/2 * (quantile (vals col) (3/4) - quantile (vals col) (1/4))
    · rw [if_pos hcond] at hsome
      obtain rfl : (⟨c ++ "_anomaly", x,
          quantile (vals col) (1/4) -
            3/2 * (quantile (vals col) (3/4) - quantile (vals col) (1/4)),
          quantile (vals col) (3/4) +
            3/2 * (quantile (vals col) (3/4) - quantile (vals col) (1/4)),
          if x < quantile (vals col) (1/4) -
              3/2 * (quantile (vals col) (3/4) - quantile (vals col) (1/4)) -
              (quantile (vals col) (3/4) - quantile (vals col) (1/4)) ∨
              x > quantile (vals col) (3/4) +
                3/2 * (quantile (vals col) (3/4) - quantile (vals col) (1/4)) +
                (quantile (vals col) (3/4) - quantile (vals col) (1/4))
            then "high" else "medium"⟩ : Anomaly) = a := by
        exact Option.some.inj hsome
      refine ⟨rfl, rfl, ?_, ?_⟩
      · exact hcond
      · dsimp only
        split
        next hsev => exact iff_of_true rfl hsev
        next hsev => exact iff_of_false (by decide) hsev
    · rw [if_neg hcond] at hsome
      exact absurd hsome (by simp)

/-- Witness for C7: the 3-sample temperature column yields no anomalies. -/
theorem c7_witness :
    anomaliesFor "temperature" [some 1, some 2, some 3] = [] :=
  c7_iqr_anomaly_bounds.1 "temperature" [some 1, some 2, some 3] (by decide)

/-- The absolute trend of a three-value window never exceeds the window's
population standard deviation: the variance is minimised, for fixed endpoints,
at the midpoint, where it is (c - a)^2 / 6 > ((c - a) / 3)^2. -/
lemma trend_le_std (a b c : ℝ) : |(c - a) / 3| ≤ npStd3 a b c := by
  have hv : ((c - a) / 3) ^ 2 ≤ npVar3 a b c := by
    rw [npVar3, npMean3]
    nlinarith [sq_nonneg (a - 2 * b + c), sq_nonneg (c - a)]
  calc |(c - a) / 3| = Real.sqrt (((c - a) / 3) ^ 2) := (Real.sqrt_sq_eq_abs _).symm
    _ ≤ Real.sqrt (npVar3 a b c) := Real.sqrt_le_sqrt hv
    _ = npStd3 a b c := rfl

/-- The confidence ratio |trend| / (std + 1e-6) is strictly below 1. -/
lemma confidence_ratio_lt_one (a b c : ℝ) :
    |(c - a) / 3| / (npStd3 a b c + 1 / 1000000) < 1 := by
  have hstd : 0 ≤ npStd3 a b c := Real.sqrt_nonneg _
  have hpos : 0 < npStd3 a b c + 1 / 1000000 := by
    have : (0:ℝ) < 1 / 1000000 := by norm_num
    linarith
  rw [div_lt_one hpos]
  have := trend_le_std a b c
  linarith

/-- The predictor confidence always lies in the interval (0.7, 0.9]. -/
lemma predConfidence_mem (a b c : ℝ) :
    0.7 < predConfidence a b c ∧ predConfidence a b c ≤ 0.9 := by
  have hstd : 0 ≤ npStd3 a b c := Real.sqrt_nonneg _
  have hpos : 0 < npStd3 a b c + 1 / 1000000 := by
    have : (0:ℝ) < 1 / 1000000 := by norm_num
    linarith
  have h0 : 0 ≤ |(c - a) / 3| / (npStd3 a b c + 1 / 1000000) :=
    div_nonneg (abs_nonneg _) hpos.le
  have h1 := confidence_ratio_lt_one a b c
  rw [predConfidence]
  constructor <;> nlinarith

/-- C9 counterexample: the claim that some degenerate window makes the
confidence exceed 1 or go negative is false — no real window [a, b, c] does,
because zero variance forces zero trend and in general
|trend| < std + 1e-6. -/
theorem c9_counterexample :
    ¬ ∃ a b c : ℝ, 1 < predConfidence a b c ∨ predConfidence a b c < 0 := by
  rintro ⟨a, b, c, h | h⟩ <;>
  · have hm := predConfidence_mem a b c
    have : (0.7:ℝ) < 0.9 := by norm_num
    nlinarith [hm.1, hm.2]

/-- C9 amended: for every three-value window the predictor confidence
0.7 + 0.2 (1 - |trend| / (std + 1e-6)) lies in [0, 1] — indeed in
(0.7, 0.9] — so it can neither exceed 1.0 nor go negative. -/
theorem c9_confidence_in_unit_interval (a b c : ℝ) :
    0 ≤ predConfidence a b c ∧ predConfidence a b c ≤ 1 ∧
    0.7 < predConfidence a b c ∧ predConfidence a b c ≤ 0.9 := by
  have hm := predConfidence_mem a b c
  refine ⟨by nlinarith [hm.1], by nlinarith [hm.2], hm.1, hm.2⟩

end PredictWeather
